import Mathlib

/-
Verification of the deferred-value / boolean-expression core of
`flytekit/annotated/promise.py`, plus the distribution-location utility from
`flytekit/tools/fast_registration.py` (known here only through its unit test).

The Python classes are shallowly embedded: Python objects become Lean
structures, `Union[...]` annotations become sum-like inductives, raising an
exception becomes returning `Except.error` carrying a `PyError`, and the
ambient type-conversion service (external to the sampled sources) is modelled
abstractly. Attribute access that can fail in Python (a missing attribute, a
missing enum member) is embedded as an explicit lookup that can produce
`PyError.attributeError`.
-/

/-- Decidable equality of embedded fallible results, so concrete runs of the
embedded code can be checked by `decide`. -/
instance {ε α : Type _} [DecidableEq ε] [DecidableEq α] : DecidableEq (Except ε α) := fun a b =>
  match a, b with
  | .ok x, .ok y => if h : x = y then .isTrue (by rw [h]) else .isFalse (by simp [h])
  | .error x, .error y => if h : x = y then .isTrue (by rw [h]) else .isFalse (by simp [h])
  | .ok _, .error _ => .isFalse (by simp)
  | .error _, .ok _ => .isFalse (by simp)

namespace Flytekit

/-- Declared engine type of a node output (`sdk_type` of a `NodeOutput`);
opaque to this core, compared only for equality. -/
inductive SdkType where
  | named (s : String)
deriving DecidableEq

/-- External `flytekit.common.promise.NodeOutput`: an opaque reference to a
specific output variable of a graph node, exposing `node_id`, `var`,
`sdk_type` and (through `sdk_node.id`) the producing node's id. -/
structure NodeOutput where
  node_id : String
  var : String
  sdk_type : SdkType
  sdk_node_id : String
deriving DecidableEq

/-- A plain (non-deferred) Python value used as a comparison operand. -/
inductive PyVal where
  | int (n : Int)
  | str (s : String)
  | boolean (b : Bool)
deriving DecidableEq

/-- External `flytekit.models.literals.Literal`: the engine's typed literal
representation. `idl` is the form produced by the external conversion
service; `lit` is an opaque pre-existing literal. -/
inductive Literal where
  | idl (v : PyVal) (t : SdkType)
  | lit (s : String)
deriving DecidableEq

/-- Python exceptions raised by the embedded code. `valueError` carries the
fixed message of a `raise ValueError(...)`; `comparisonTypeMismatch` is the
`ValueError` whose f-string message interpolates the two variable names
(source line 41); `attributeError` carries the missing attribute's name. -/
inductive PyError where
  | valueError (msg : String)
  | comparisonTypeMismatch (lvar rvar : String)
  | attributeError (name : String)
  | indexError (msg : String)
deriving DecidableEq

/-- Rendered message of each embedded exception, mirroring the Python text. -/
def PyError.message : PyError → String
  | .valueError m => m
  | .comparisonTypeMismatch l r => "Comparison between non comparable types " ++ l ++ " & " ++ r
  | .attributeError n => n
  | .indexError m => m

/-- The spec's abstract `UsageError` kind: in the code every usage violation
is a `ValueError` with a fixed message (truthiness, `&`/`|` on a promise,
comparison of a completed promise, comparison with no promise operand). -/
def isUsageError : PyError → Bool
  | .valueError _ => true
  | _ => false

/-- The spec's abstract `TypeMismatchError` kind: the `ValueError` raised when
two deferred operands have different `sdk_type`s (source line 41). -/
def isTypeMismatchError : PyError → Bool
  | .comparisonTypeMismatch _ _ => true
  | _ => false

/-- Enum `ConjunctionOps` (source lines 11-13). -/
inductive ConjunctionOps where
  | AND
  | OR
deriving DecidableEq

/-- Enum `ComparisonOps` (source lines 16-22): members EQ, NE, GT, GTE, LT, LTE. -/
inductive ComparisonOps where
  | EQ
  | NE
  | GT
  | GTE
  | LT
  | LTE
deriving DecidableEq

/-- The string value of each `ComparisonOps` member. -/
def ComparisonOps.value : ComparisonOps → String
  | .EQ => "="
  | .NE => "!="
  | .GT => ">"
  | .GTE => ">="
  | .LT => "<"
  | .LTE => "<="

/-- Python attribute lookup on the `ComparisonOps` enum class: exactly the
six declared members resolve; any other name (such as `GE` or `LE`, which the
source references on lines 182 and 188) is missing. -/
def comparisonOpsAttr : String → Option ComparisonOps
  | "EQ" => some .EQ
  | "NE" => some .NE
  | "GT" => some .GT
  | "GTE" => some .GTE
  | "LT" => some .LT
  | "LTE" => some .LTE
  | _ => none

/-- `ComparisonOps.<name>` as evaluated by Python: a missing member raises
`AttributeError`. -/
def comparisonOpsGetattr (name : String) : Except PyError ComparisonOps :=
  match comparisonOpsAttr name with
  | some op => pure op
  | none => .error (.attributeError name)

/-- `Union[_NodeOutput, _literal_models.Literal]`: the type of `Promise.__init__`'s
`val` argument and of a `ComparisonExpression`'s resolved operand slots. -/
inductive NodeOrLiteral where
  | nodeOutput (n : NodeOutput)
  | literal (l : Literal)
deriving DecidableEq

/-- Object state of class `Promise` (source lines 127-135). `_val` is
`Option Literal` because Python overwrites `self._val = None` in the
`NodeOutput` branch; `_ref` is `Option NodeOutput` with `none` meaning the
attribute was never set (the ready branch of `__init__` does not set it). -/
structure Promise where
  _var : String
  _promise_ready : Bool
  _val : Option Literal
  _ref : Option NodeOutput
deriving DecidableEq

/-- `Promise.__init__(var, val)` (source lines 128-135): sets `_var`,
`_promise_ready = True`, `_val = val`; if `val` is a `NodeOutput`, sets
`_ref = val`, `_promise_ready = False`, `_val = None`. -/
def Promise.init (var : String) (val : NodeOrLiteral) : Promise :=
  match val with
  | .nodeOutput n =>
      { _var := var, _promise_ready := false, _val := none, _ref := some n }
  | .literal l =>
      { _var := var, _promise_ready := true, _val := some l, _ref := none }

/-- Property `Promise.is_ready` (source line 138). -/
def Promise.is_ready (self : Promise) : Bool :=
  self._promise_ready

/-- Property `Promise.val` (source line 152): returns `self._val` (which is
Python `None` for a not-ready promise); it never raises, hence always `ok`. -/
def Promise.val (self : Promise) : Except PyError (Option Literal) :=
  pure self._val

/-- Property `Promise.ref` (source line 159): returns `self._ref`; on a ready
promise `__init__` never set `_ref`, so the access raises `AttributeError`. -/
def Promise.ref (self : Promise) : Except PyError NodeOutput :=
  match self._ref with
  | some r => pure r
  | none => .error (.attributeError "_ref")

/-- Property `Promise.var` (source line 166). -/
def Promise.var (self : Promise) : String :=
  self._var

/-- The message of the `ValueError` raised by `__bool__` on `Promise`,
`ComparisonExpression` and `ConjunctionExpression` (identical in all three). -/
def truthValueMsg : String :=
  "Cannot perform truth value testing, This is a limitation in python. For Logical `and\\or` use `&\\|` (bitwise) instead"

/-- `Promise.__bool__` (source lines 190-193): always raises `ValueError`. -/
def Promise.bool_ (_self : Promise) : Except PyError Bool :=
  .error (.valueError truthValueMsg)

/-- `Union['Promise', Any]`: an operand of a comparison, either a deferred
value or a plain Python value. -/
inductive Operand where
  | promise (p : Promise)
  | py (v : PyVal)
deriving DecidableEq

/-- Modelled from the spec: `flytekit_engine.python_value_to_idl_literal`
(module `flytekit.engine`, not among the sampled sources) is the external
type-conversion service turning a native value into the engine's typed
literal for a target type; its own failure modes lie outside this core and
are not modelled. -/
def python_value_to_idl_literal (v : PyVal) (t : SdkType) : Literal :=
  .idl v t

/-- Object state of class `ComparisonExpression` (source lines 25-61): the
two resolved operand slots and the operator. -/
structure ComparisonExpression where
  _lhs : NodeOrLiteral
  _op : ComparisonOps
  _rhs : NodeOrLiteral
deriving DecidableEq

/-- `ComparisonExpression.__init__(lhs, op, rhs)` (source lines 26-49).
The running `self._lhs`/`self._rhs`/`_type` locals are represented by
per-side sums (`inl` = resolved node reference, `inr` = still the raw
non-promise value, i.e. the Python state where the slot is `None`): a slot is
`None` at the conversion step exactly when its operand was not a `Promise`. -/
def ComparisonExpression.init (lhs : Operand) (op : ComparisonOps) (rhs : Operand) :
    Except PyError ComparisonExpression := do
  -- lines 31-35: lhs side
  let lstate : Sum NodeOutput PyVal ← match lhs with
    | .promise p =>
        if p.is_ready then
          .error (.valueError "Comparison of completed promise is not allowed.")
        else do
          let r ← p.ref
          pure (Sum.inl r)
    | .py v => pure (Sum.inr v)
  let ltype : Option SdkType := match lstate with
    | .inl r => some r.sdk_type
    | .inr _ => none
  -- lines 36-43: rhs side, with the type-compatibility check
  let rstate : Sum NodeOutput PyVal ← match rhs with
    | .promise q =>
        if q.is_ready then
          .error (.valueError "Comparison of completed promise is not allowed.")
        else do
          let r ← q.ref
          match ltype with
          | some t =>
              if t ≠ r.sdk_type then
                match lstate with
                | .inl ln => .error (.comparisonTypeMismatch ln.var r.var)
                -- unreachable (`_type` is set only when lhs was a Promise);
                -- Python would evaluate `None.var` and raise AttributeError
                | .inr _ => .error (.attributeError "var")
              else pure (Sum.inl r)
          | none => pure (Sum.inl r)
    | .py v => pure (Sum.inr v)
  -- line 43 also reassigns `_type` to the rhs type whenever rhs is a Promise
  let _type : Option SdkType := match rstate with
    | .inl r => some r.sdk_type
    | .inr _ => ltype
  -- lines 44-45
  let t ← match _type with
    | none => .error (.valueError "Either LHS or RHS should be a promise")
    | some t => pure t
  -- lines 46-49: convert any still-raw side through the external service
  let flhs : NodeOrLiteral := match lstate with
    | .inl r => .nodeOutput r
    | .inr v => .literal (python_value_to_idl_literal v t)
  let frhs : NodeOrLiteral := match rstate with
    | .inl r => .nodeOutput r
    | .inr v => .literal (python_value_to_idl_literal v t)
  pure { _lhs := flhs, _op := op, _rhs := frhs }

/-- Property `ComparisonExpression.rhs` (source line 52). -/
def ComparisonExpression.rhs (self : ComparisonExpression) : NodeOrLiteral :=
  self._rhs

/-- Property `ComparisonExpression.lhs` (source line 56). -/
def ComparisonExpression.lhs (self : ComparisonExpression) : NodeOrLiteral :=
  self._lhs

/-- Property `ComparisonExpression.op` (source line 60). -/
def ComparisonExpression.op (self : ComparisonExpression) : ComparisonOps :=
  self._op

/-- `ComparisonExpression.__bool__` (source lines 71-74): always raises. -/
def ComparisonExpression.bool_ (_self : ComparisonExpression) : Except PyError Bool :=
  .error (.valueError truthValueMsg)

/-- The expression tree handed to the engine: a `ComparisonExpression` leaf
or a `ConjunctionExpression` node (class on source lines 91-124, whose
`_lhs`/`_rhs` may each be a comparison or another conjunction). -/
inductive Expression where
  | comparison (c : ComparisonExpression)
  | conjunction (lhs : Expression) (op : ConjunctionOps) (rhs : Expression)
deriving DecidableEq

/-- `ConjunctionExpression.__init__(lhs, op, rhs)` (source lines 93-96):
stores the operand expressions and the operator, no validation. -/
def ConjunctionExpression.init (lhs : Expression) (op : ConjunctionOps) (rhs : Expression) :
    Expression :=
  .conjunction lhs op rhs

/-- Property `ConjunctionExpression.rhs` (source line 99); `none` when the
expression is not a conjunction node. -/
def ConjunctionExpression.rhs : Expression → Option Expression
  | .conjunction _ _ r => some r
  | .comparison _ => none

/-- Property `ConjunctionExpression.lhs` (source line 103). -/
def ConjunctionExpression.lhs : Expression → Option Expression
  | .conjunction l _ _ => some l
  | .comparison _ => none

/-- Property `ConjunctionExpression.op` (source line 107). -/
def ConjunctionExpression.op : Expression → Option ConjunctionOps
  | .conjunction _ op _ => some op
  | .comparison _ => none

/-- `ComparisonExpression.__and__(other)` (source lines 63-65): builds
`ConjunctionExpression(lhs=self, op=AND, rhs=other)`. -/
def ComparisonExpression.and_ (self : ComparisonExpression) (other : Expression) : Expression :=
  ConjunctionExpression.init (.comparison self) .AND other

/-- `ComparisonExpression.__or__(other)` (source lines 67-69). -/
def ComparisonExpression.or_ (self : ComparisonExpression) (other : Expression) : Expression :=
  ConjunctionExpression.init (.comparison self) .OR other

/-- `ConjunctionExpression.__and__(other)` (source lines 110-112): builds a
new conjunction with `self` as the left operand. -/
def Expression.and_ (self : Expression) (other : Expression) : Expression :=
  ConjunctionExpression.init self .AND other

/-- `ConjunctionExpression.__or__(other)` (source lines 114-116). -/
def Expression.or_ (self : Expression) (other : Expression) : Expression :=
  ConjunctionExpression.init self .OR other

/-- `ConjunctionExpression.__bool__` (source lines 118-121): always raises. -/
def Expression.bool_ (_self : Expression) : Except PyError Bool :=
  .error (.valueError truthValueMsg)

/-- Shared body of `Promise.__eq__` .. `Promise.__le__` (source lines
172-188): each evaluates `ComparisonOps.<name>` (an attribute lookup that
raises `AttributeError` for a missing member) and then constructs
`ComparisonExpression(self, op, other)`. -/
def Promise.comparison (self : Promise) (attrName : String) (other : Operand) :
    Except PyError ComparisonExpression := do
  let op ← comparisonOpsGetattr attrName
  ComparisonExpression.init (.promise self) op other

/-- `Promise.__eq__` (source lines 172-173): uses `ComparisonOps.EQ`. -/
def Promise.eq_ (self : Promise) (other : Operand) : Except PyError ComparisonExpression :=
  self.comparison "EQ" other

/-- `Promise.__ne__` (source lines 175-176): uses `ComparisonOps.NE`. -/
def Promise.ne_ (self : Promise) (other : Operand) : Except PyError ComparisonExpression :=
  self.comparison "NE" other

/-- `Promise.__gt__` (source lines 178-179): uses `ComparisonOps.GT`. -/
def Promise.gt_ (self : Promise) (other : Operand) : Except PyError ComparisonExpression :=
  self.comparison "GT" other

/-- `Promise.__ge__` (source lines 181-182): references `ComparisonOps.GE`,
a member the enum does not declare (it declares `GTE`). -/
def Promise.ge_ (self : Promise) (other : Operand) : Except PyError ComparisonExpression :=
  self.comparison "GE" other

/-- `Promise.__lt__` (source lines 184-185): uses `ComparisonOps.LT`. -/
def Promise.lt_ (self : Promise) (other : Operand) : Except PyError ComparisonExpression :=
  self.comparison "LT" other

/-- `Promise.__le__` (source lines 187-188): references `ComparisonOps.LE`,
a member the enum does not declare (it declares `LTE`). -/
def Promise.le_ (self : Promise) (other : Operand) : Except PyError ComparisonExpression :=
  self.comparison "LE" other

/-- `Promise.__and__` (source lines 195-196): always raises `ValueError`. -/
def Promise.and_ (_self : Promise) (_other : Operand) : Except PyError Expression :=
  .error (.valueError "Cannot perform Logical AND of Promise with other")

/-- `Promise.__or__` (source lines 198-199): always raises `ValueError`. -/
def Promise.or_ (_self : Promise) (_other : Operand) : Except PyError Expression :=
  .error (.valueError "Cannot perform Logical OR of Promise with other")

/-- `Promise.with_overrides(*args, **kwargs)` (source lines 201-206): when
not ready it only prints `f"Forwarding to node {self.ref.sdk_node.id}"` (the
actual forwarding is commented out) and in every case returns `self`
unchanged. The returned `List String` is the print trace. -/
def Promise.with_overrides (self : Promise) : Except PyError (Promise × List String) := do
  if !self.is_ready then
    let r ← self.ref
    pure (self, ["Forwarding to node " ++ r.sdk_node_id])
  else
    pure (self, [])

/-- Object state of the `Output` namedtuple subclass built inside
`create_task_output` (source lines 234-238): `namedtuple("TaskOutput",
variables)` instantiated with the promises, so `_fields` holds the variable
names and the tuple slots hold the promises in the same order. -/
structure Output where
  _fields : List String
  slots : List Promise
deriving DecidableEq

/-- `Output.with_overrides(*args, **kwargs)` (source lines 235-238): looks up
the field named `self._fields[0]` (the first tuple slot), calls its
`with_overrides`, and returns `self`. An empty tuple would make the index
access raise `IndexError`. The `List String` is the print trace of the
forwarded call. -/
def Output.with_overrides (self : Output) : Except PyError (Output × List String) := do
  match self.slots with
  | [] => .error (.indexError "tuple index out of range")
  | v :: _ =>
      let (_, log) ← Promise.with_overrides v
      pure (self, log)

/-- `Union[List[Promise], Promise, None]`: the argument of
`create_task_output`. -/
inductive TaskOutputArg where
  | nonePy
  | promise (p : Promise)
  | list (ps : List Promise)
deriving DecidableEq

/-- `Union[Tuple[Promise], Promise, None]`: the result of
`create_task_output`, with Python `None` as `Option.none`. -/
inductive TaskOutputRes where
  | promise (p : Promise)
  | output (o : Output)
deriving DecidableEq

/-- `create_task_output(promises)` (source lines 218-240): `None` for `None`
or an empty list, the promise itself for a bare promise or a singleton list,
otherwise the `Output` namedtuple keyed by each promise's `var` in order. -/
def create_task_output : TaskOutputArg → Option TaskOutputRes
  | .nonePy => none
  | .promise p => some (.promise p)
  | .list [] => none
  | .list [p] => some (.promise p)
  | .list ps => some (.output { _fields := ps.map Promise.var, slots := ps })

/-- Modelled from the spec: `get_additional_distribution_loc` from
`flytekit/tools/fast_registration.py` is not among the sampled sources (only
its unit test is); per the spec it joins a remote storage location and a
content-addressed identifier into `"<location>/<id>.tar.gz"`, normalizing a
single trailing slash on the location if present. Strings are handled
through their character lists. -/
def get_additional_distribution_loc (remote_location additional_distribution : String) :
    String :=
  let locChars :=
    if remote_location.data.getLast? = some '/' then remote_location.data.dropLast
    else remote_location.data
  ⟨locChars ++ '/' :: (additional_distribution.data ++ ".tar.gz".data)⟩

/- Concrete fixture values used by closed theorems and witnesses. -/

def intType : SdkType := .named "int"

def strType : SdkType := .named "str"

def nodeX : NodeOutput := { node_id := "n1", var := "x", sdk_type := intType, sdk_node_id := "n1" }

def nodeY : NodeOutput := { node_id := "n2", var := "y", sdk_type := intType, sdk_node_id := "n2" }

def nodeZ : NodeOutput := { node_id := "n3", var := "z", sdk_type := strType, sdk_node_id := "n3" }

def promiseX : Promise := Promise.init "x" (.nodeOutput nodeX)

def promiseY : Promise := Promise.init "y" (.nodeOutput nodeY)

def promiseZ : Promise := Promise.init "z" (.nodeOutput nodeZ)

def promiseR : Promise := Promise.init "r" (.literal (.lit "5"))

/-- Claim C1: the spec says every comparison operator on a not-ready promise
builds a `ComparisonExpression` with the matching member of
{EQ, NE, GT, GTE, LT, LTE}. The code delivers this for `=`, `≠`, `>`, `<`,
but `__ge__` and `__le__` reference the undeclared enum members
`ComparisonOps.GE` / `ComparisonOps.LE` (the enum declares `GTE` / `LTE`), so
`>=` and `<=` raise `AttributeError` instead of building an expression:
evaluated here on two not-ready promises of the same declared type. -/
theorem promise_ge_le_raise_attribute_error :
    Promise.eq_ promiseX (.promise promiseY) =
      Except.ok { _lhs := .nodeOutput nodeX, _op := ComparisonOps.EQ, _rhs := .nodeOutput nodeY } ∧
    Promise.ne_ promiseX (.promise promiseY) =
      Except.ok { _lhs := .nodeOutput nodeX, _op := ComparisonOps.NE, _rhs := .nodeOutput nodeY } ∧
    Promise.gt_ promiseX (.promise promiseY) =
      Except.ok { _lhs := .nodeOutput nodeX, _op := ComparisonOps.GT, _rhs := .nodeOutput nodeY } ∧
    Promise.lt_ promiseX (.promise promiseY) =
      Except.ok { _lhs := .nodeOutput nodeX, _op := ComparisonOps.LT, _rhs := .nodeOutput nodeY } ∧
    Promise.ge_ promiseX (.promise promiseY) = Except.error (PyError.attributeError "GE") ∧
    Promise.le_ promiseX (.promise promiseY) = Except.error (PyError.attributeError "LE") ∧
    comparisonOpsAttr "GTE" = some ComparisonOps.GTE ∧
    comparisonOpsAttr "LTE" = some ComparisonOps.LTE := by
  decide

/-- Claim C5: boolean coercion of any promise, comparison expression or
conjunction expression raises the truth-value-testing `ValueError` (the
spec's `UsageError`), and `&` / `|` on a bare promise raise as well. -/
theorem truthiness_and_logical_ops_forbidden (p : Promise) (c : ComparisonExpression)
    (e : Expression) (other : Operand) :
    Promise.bool_ p = Except.error (PyError.valueError truthValueMsg) ∧
    ComparisonExpression.bool_ c = Except.error (PyError.valueError truthValueMsg) ∧
    Expression.bool_ e = Except.error (PyError.valueError truthValueMsg) ∧
    Promise.and_ p other =
      Except.error (PyError.valueError "Cannot perform Logical AND of Promise with other") ∧
    Promise.or_ p other =
      Except.error (PyError.valueError "Cannot perform Logical OR of Promise with other") ∧
    isUsageError (PyError.valueError truthValueMsg) = true ∧
    isUsageError (PyError.valueError "Cannot perform Logical AND of Promise with other") = true ∧
    isUsageError (PyError.valueError "Cannot perform Logical OR of Promise with other") = true := by
  exact ⟨rfl, rfl, rfl, rfl, rfl, rfl, rfl, rfl⟩

/-- Claim C6: `(expr_a & expr_b) | expr_c` yields a conjunction whose root
operator is OR, whose left child is the AND-conjunction of the two
comparisons, and whose right child is `expr_c`; and `&` / `|` on an existing
conjunction always place it as the left operand of the new node. -/
theorem conjunction_chaining_left_leaning (a b : ComparisonExpression) (c : Expression)
    (l r other : Expression) (op : ConjunctionOps) :
    (ComparisonExpression.and_ a (.comparison b)).or_ c =
      Expression.conjunction
        (Expression.conjunction (.comparison a) ConjunctionOps.AND (.comparison b))
        ConjunctionOps.OR c ∧
    ConjunctionExpression.op ((ComparisonExpression.and_ a (.comparison b)).or_ c) =
      some ConjunctionOps.OR ∧
    ConjunctionExpression.lhs ((ComparisonExpression.and_ a (.comparison b)).or_ c) =
      some (ComparisonExpression.and_ a (.comparison b)) ∧
    ConjunctionExpression.rhs ((ComparisonExpression.and_ a (.comparison b)).or_ c) = some c ∧
    Expression.and_ (.conjunction l op r) other =
      Expression.conjunction (.conjunction l op r) ConjunctionOps.AND other ∧
    Expression.or_ (.conjunction l op r) other =
      Expression.conjunction (.conjunction l op r) ConjunctionOps.OR other := by
  exact ⟨rfl, rfl, rfl, rfl, rfl, rfl⟩

/-- Claim C7: aggregating `None` or an empty list yields `None`, a singleton
list yields its promise unwrapped, and two or more promises yield the named
aggregate with one field per promise, named by `var`, in input order. -/
theorem create_task_output_aggregation (x p q : Promise) (rest : List Promise) :
    create_task_output .nonePy = none ∧
    create_task_output (.list []) = none ∧
    create_task_output (.list [x]) = some (.promise x) ∧
    create_task_output (.list (p :: q :: rest)) =
      some (.output { _fields := (p :: q :: rest).map Promise.var, slots := p :: q :: rest }) := by
  exact ⟨rfl, rfl, rfl, rfl⟩

/-- Claim C10: a single bare promise (not wrapped in a list) is returned
unchanged by `create_task_output`, the same identity behavior as `[p]`. -/
theorem create_task_output_bare_promise (p : Promise) :
    create_task_output (.promise p) = some (.promise p) :=
  rfl

/-- Claim C4 counterexample: the claim says `value()` on a not-ready promise
fails with `StateError`, but on the concrete not-ready promise `promiseX`
the `val` property returns successfully (Python `None`, no exception). -/
theorem val_of_not_ready_promise_returns_none :
    Promise.is_ready promiseX = false ∧ Promise.val promiseX = Except.ok none := by
  decide

/-- Claim C4 (amended): for every ready promise, `is_ready` is true, `val`
returns the stored literal and `ref` fails (with `AttributeError`, the
attribute never having been set — the code has no `StateError`); for every
not-ready promise, `is_ready` is false, `ref` returns the stored node-output
reference and `val` returns `None` successfully instead of failing. -/
theorem promise_accessor_contract (var : String) (l : Literal) (n : NodeOutput) :
    Promise.is_ready (Promise.init var (.literal l)) = true ∧
    Promise.val (Promise.init var (.literal l)) = Except.ok (some l) ∧
    Promise.ref (Promise.init var (.literal l)) = Except.error (PyError.attributeError "_ref") ∧
    Promise.is_ready (Promise.init var (.nodeOutput n)) = false ∧
    Promise.ref (Promise.init var (.nodeOutput n)) = Except.ok n ∧
    Promise.val (Promise.init var (.nodeOutput n)) = Except.ok none := by
  exact ⟨rfl, rfl, rfl, rfl, rfl, rfl⟩

/-- Claim C2: constructing a `ComparisonExpression` from two plain (non
promise) values raises the `ValueError` "Either LHS or RHS should be a
promise", and a ready promise on either side (the other side being a plain
value or any constructed promise) raises the `ValueError` "Comparison of
completed promise is not allowed."; both are the spec's `UsageError`. -/
theorem comparison_construction_usage_errors (v w : PyVal) (op : ComparisonOps)
    (var var2 : String) (l : Literal) (n : NodeOutput) (rhs : Operand) :
    ComparisonExpression.init (.py v) op (.py w) =
      Except.error (PyError.valueError "Either LHS or RHS should be a promise") ∧
    ComparisonExpression.init (.promise (Promise.init var (.literal l))) op rhs =
      Except.error (PyError.valueError "Comparison of completed promise is not allowed.") ∧
    ComparisonExpression.init (.py v) op (.promise (Promise.init var (.literal l))) =
      Except.error (PyError.valueError "Comparison of completed promise is not allowed.") ∧
    ComparisonExpression.init (.promise (Promise.init var2 (.nodeOutput n))) op
        (.promise (Promise.init var (.literal l))) =
      Except.error (PyError.valueError "Comparison of completed promise is not allowed.") ∧
    isUsageError (PyError.valueError "Either LHS or RHS should be a promise") = true ∧
    isUsageError (PyError.valueError "Comparison of completed promise is not allowed.") = true := by
  exact ⟨rfl, rfl, rfl, rfl, rfl, rfl⟩

/-- Claim C3: constructing a `ComparisonExpression` from two not-ready
promises fails with the type-mismatch error (the spec's `TypeMismatchError`)
when their declared `sdk_type`s differ, and with matching types succeeds,
storing both node-output references and the operator unchanged, retrievable
through the `lhs` / `rhs` / `op` accessors. -/
theorem comparison_of_two_deferred (var1 var2 : String) (m1 m2 : NodeOutput)
    (op : ComparisonOps) :
    (m1.sdk_type ≠ m2.sdk_type →
      ComparisonExpression.init (.promise (Promise.init var1 (.nodeOutput m1))) op
          (.promise (Promise.init var2 (.nodeOutput m2))) =
        Except.error (PyError.comparisonTypeMismatch m1.var m2.var) ∧
      isTypeMismatchError (PyError.comparisonTypeMismatch m1.var m2.var) = true) ∧
    (m1.sdk_type = m2.sdk_type →
      ∃ c, ComparisonExpression.init (.promise (Promise.init var1 (.nodeOutput m1))) op
          (.promise (Promise.init var2 (.nodeOutput m2))) = Except.ok c ∧
        c.lhs = .nodeOutput m1 ∧ c.rhs = .nodeOutput m2 ∧ c.op = op) := by
  constructor
  · intro h
    refine ⟨?_, rfl⟩
    simp [ComparisonExpression.init, Promise.init, Promise.is_ready, Promise.ref, h,
      Bind.bind, Except.bind, pure, Except.pure]
  · intro h
    refine ⟨{ _lhs := .nodeOutput m1, _op := op, _rhs := .nodeOutput m2 }, ?_, rfl, rfl, rfl⟩
    simp [ComparisonExpression.init, Promise.init, Promise.is_ready, Promise.ref, h,
      Bind.bind, Except.bind, pure, Except.pure]

/-- Concrete run of `comparison_of_two_deferred`: `x > z` on differing types
(int vs str) raises the mismatch error, `x > y` on matching types builds the
expression with both references and the GT operator. -/
theorem comparison_of_two_deferred_witness :
    (ComparisonExpression.init (.promise promiseX) ComparisonOps.GT (.promise promiseZ) =
        Except.error (PyError.comparisonTypeMismatch nodeX.var nodeZ.var) ∧
      isTypeMismatchError (PyError.comparisonTypeMismatch nodeX.var nodeZ.var) = true) ∧
    (∃ c, ComparisonExpression.init (.promise promiseX) ComparisonOps.GT (.promise promiseY) =
        Except.ok c ∧
      c.lhs = .nodeOutput nodeX ∧ c.rhs = .nodeOutput nodeY ∧ c.op = ComparisonOps.GT) :=
  ⟨(comparison_of_two_deferred "x" "z" nodeX nodeZ ComparisonOps.GT).1 (by decide),
   (comparison_of_two_deferred "x" "y" nodeX nodeY ComparisonOps.GT).2 (by decide)⟩

/-- Claim C8: `with_overrides` on any constructed promise returns the very
same promise (the forwarding to the producing node is disabled; only a print
trace is emitted), and on a multi-slot `Output` aggregate the call is
forwarded only to the first slot's promise, the aggregate itself being
returned unchanged with exactly that first slot's trace. -/
theorem with_overrides_inert (var : String) (input : NodeOrLiteral)
    (fields : List String) (rest : List Promise) :
    (∃ log, Promise.with_overrides (Promise.init var input) =
        Except.ok (Promise.init var input, log)) ∧
    (∀ log, Promise.with_overrides (Promise.init var input) =
        Except.ok (Promise.init var input, log) →
      Output.with_overrides { _fields := fields, slots := Promise.init var input :: rest } =
        Except.ok ({ _fields := fields, slots := Promise.init var input :: rest }, log)) := by
  constructor
  · cases input with
    | nodeOutput n => exact ⟨["Forwarding to node " ++ n.sdk_node_id], rfl⟩
    | literal l => exact ⟨[], rfl⟩
  · intro log h
    simp [Output.with_overrides, h, Bind.bind, Except.bind, pure, Except.pure]

/-- Concrete run of `with_overrides_inert`: the not-ready promise `x` is
returned unchanged, and the two-slot aggregate of `x` and `y` forwards only
to `x` (trace mentions node n1 only) and is returned unchanged. -/
theorem with_overrides_inert_witness :
    (∃ log, Promise.with_overrides promiseX = Except.ok (promiseX, log)) ∧
    Output.with_overrides { _fields := ["x", "y"], slots := [promiseX, promiseY] } =
      Except.ok ({ _fields := ["x", "y"], slots := [promiseX, promiseY] },
        ["Forwarding to node n1"]) :=
  ⟨(with_overrides_inert "x" (.nodeOutput nodeX) ["x", "y"] [promiseY]).1,
   (with_overrides_inert "x" (.nodeOutput nodeX) ["x", "y"] [promiseY]).2
     ["Forwarding to node n1"] (by decide)⟩

/-- Claim C9: the location-join function returns
`"<location>/<id>.tar.gz"`, and a single trailing slash on the location is
normalized away so the slash is not duplicated. -/
theorem distribution_loc_join (loc ident : String) (h : loc.data.getLast? ≠ some '/') :
    get_additional_distribution_loc loc ident =
      ⟨loc.data ++ '/' :: (ident.data ++ ".tar.gz".data)⟩ ∧
    get_additional_distribution_loc ⟨loc.data ++ ['/']⟩ ident =
      get_additional_distribution_loc loc ident := by
  constructor
  · simp [get_additional_distribution_loc, h]
  · simp [get_additional_distribution_loc, h]

/-- Concrete run of `distribution_loc_join` on the unit test's input, with
and without a trailing slash on the location. -/
theorem distribution_loc_join_witness :
    ("s3://my-s3-bucket/dir" : String).data.getLast? ≠ some '/' ∧
    (get_additional_distribution_loc "s3://my-s3-bucket/dir" "123abc" =
        ⟨("s3://my-s3-bucket/dir" : String).data ++
          '/' :: (("123abc" : String).data ++ ".tar.gz".data)⟩ ∧
      get_additional_distribution_loc ⟨("s3://my-s3-bucket/dir" : String).data ++ ['/']⟩
          "123abc" =
        get_additional_distribution_loc "s3://my-s3-bucket/dir" "123abc") ∧
    get_additional_distribution_loc "s3://my-s3-bucket/dir" "123abc" =
      "s3://my-s3-bucket/dir/123abc.tar.gz" :=
  ⟨by decide, distribution_loc_join "s3://my-s3-bucket/dir" "123abc" (by decide), by decide⟩

end Flytekit
